import Mathlib

/-
Verification development for the catalog service (src/catalog).
The data model and the operations are shallowly embedded from
src/catalog/models.py, src/catalog/serializer.py and src/catalog/views.py.
The persistent store is modelled as a list of Product records; Django
querysets become list filters, and fallible request handlers return Except.
Decimal columns are modelled as exact rationals; machine integers in the
source are plain Python integers, so Int is used without wrap-around.
-/

namespace Catalog

/-- Embeds the Product model of src/catalog/models.py (class Product).
Columns that no claim touches and that no operation reads or writes
(compare_at_price, model_number, the JSON attributes column and the two
auto timestamps) are carried as optional data or omitted; the commented-out
flag columns of models.py lines 158-176 (is_featured, is_available,
is_bestseller, is_new) and the nowhere-declared low_stock_threshold do NOT
exist on the model, which matters for several operations below. -/
structure Product where
  product_id : Int
  sku : String
  name : String
  category : String
  price : ℚ
  is_active : Bool := true
  slug : Option String := none
  description : Option String := none
  short_description : Option String := none
  cost_price : Option ℚ := none
  compare_at_price : Option ℚ := none
  brand : Option String := none
  model_number : Option String := none
  stock_quantity : Int := 0
deriving DecidableEq, Repr

/-- Python truthiness of a nullable slug value: None and the empty string
are falsy (the `if not self.slug` test in Product.save). -/
def slugFalsy : Option String → Bool
  | none => true
  | some s => s == ""

/-- ASCII whitespace class of the regexes in django.utils.text.slugify
(after the ascii encode step the input is ASCII, so the \s class is the
six ASCII whitespace characters). -/
def isSpaceChar (c : Char) : Bool :=
  c == ' ' || c == '\t' || c == '\n' || c == '\r' || c == '\x0b' || c == '\x0c'

/-- The \w class of the slugify regex: ASCII letters, digits, underscore. -/
def isWordChar (c : Char) : Bool :=
  c.isAlphanum || c == '_'

/-- Collapses every run of hyphens and whitespace into a single hyphen:
the re.sub of [-\s]+ with a hyphen inside django.utils.text.slugify. -/
def collapseDash : List Char → List Char
  | [] => []
  | [c] => if c == '-' || isSpaceChar c then ['-'] else [c]
  | c :: d :: cs =>
    if (c == '-' || isSpaceChar c) && (d == '-' || isSpaceChar d) then
      collapseDash (d :: cs)
    else
      (if c == '-' || isSpaceChar c then '-' else c) :: collapseDash (d :: cs)

/-- Strips leading and trailing hyphens and underscores: the final
.strip of django.utils.text.slugify. -/
def stripDashUnderscore (l : List Char) : List Char :=
  ((l.dropWhile (fun c => c == '-' || c == '_')).reverse.dropWhile
    (fun c => c == '-' || c == '_')).reverse

/-- Embeds django.utils.text.slugify with allow_unicode=False: normalize
to ASCII (non-ASCII characters are dropped; the NFKD transliteration of
accented letters is not modelled, every name the claims use is ASCII),
lower-case, delete characters outside word/whitespace/hyphen, collapse
hyphen and whitespace runs to single hyphens, strip edge hyphens and
underscores. -/
def slugify (s : String) : String :=
  String.mk (stripDashUnderscore (collapseDash
    (((s.data.filter (fun c => c.toNat < 128)).map Char.toLower).filter
      (fun c => isWordChar c || isSpaceChar c || c == '-'))))

/-- The queryset Product.objects.filter(slug=slug).exclude(product_id=self.product_id).exists()
of Product.save: some other record already holds this slug. -/
def slugTaken (db : List Product) (selfId : Int) (s : String) : Bool :=
  db.any (fun q => q.slug == some s && q.product_id != selfId)

/-- The candidate slugs tried by the while loop of Product.save:
the base slug first, then base-1, base-2, and so on. -/
def slugCandidate (base : String) (k : Nat) : String :=
  if k == 0 then base else base ++ "-" ++ toString k

/-- The while loop of Product.save, unrolled on explicit fuel. The loop
tries slugCandidate base k for k = 0, 1, 2, ... until one is unused.
With fuel (db.length + 1) the loop always reaches a free candidate before
the fuel runs out, because db.length + 1 pairwise distinct candidate
strings cannot all be held by the db.length records of the store
(each record holds one slug), so the fuel base case is never the value
actually returned on any input the operations produce. -/
def genSlugAux (db : List Product) (selfId : Int) (base : String) : Nat → Nat → String
  | 0, k => slugCandidate base k
  | fuel + 1, k =>
    if slugTaken db selfId (slugCandidate base k) then
      genSlugAux db selfId base fuel (k + 1)
    else
      slugCandidate base k

/-- Slug generation of Product.save lines 202-212 of models.py. -/
def genSlug (db : List Product) (selfId : Int) (base : String) : String :=
  genSlugAux db selfId base (db.length + 1) 0

/-- Embeds Product.save of models.py lines 200-213: when the slug is
falsy, derive it from the name with the collision-resolving counter loop,
excluding the record itself from the collision check; otherwise leave the
record unchanged. The super().save() persistence is modelled separately
(insertProduct / row replacement at the call sites). -/
def Product.save (db : List Product) (self : Product) : Product :=
  if slugFalsy self.slug then
    { self with slug := some (genSlug db self.product_id (slugify self.name)) }
  else
    self

/-- The is_in_stock property of models.py lines 215-218. -/
def Product.is_in_stock (p : Product) : Bool :=
  p.stock_quantity > 0

/-- The category choices of the Product model (CATEGORY_CHOICES). -/
def categoryChoices : List String :=
  ["Electronics", "Clothing", "Books"]

/-- Input accepted by ProductCreateUpdateSerializer (serializer.py lines
87-124): exactly its declared writable fields; fields absent from the
payload are none. The JSON attributes field carries no behaviour any
claim touches and is omitted. -/
structure ProductInput where
  product_id : Int
  sku : String
  name : String
  category : String
  price : ℚ
  slug : Option String := none
  cost_price : Option ℚ := none
  is_active : Option Bool := none
  description : Option String := none
  short_description : Option String := none
  brand : Option String := none
  stock_quantity : Option Int := none
deriving DecidableEq, Repr

/-- validate_price of serializer.py lines 99-102. -/
def validate_price (value : ℚ) : Except String ℚ :=
  if value ≤ 0 then .error "Price must be greater than 0"
  else .ok value

/-- validate_sku of serializer.py lines 104-114: with an instance (update)
the uniqueness filter excludes the record being updated; without one
(create) every record in the store is checked. The filter never looks at
is_active, so soft-deleted records participate. String equality is exact
and case-sensitive, matching the plain equality lookup. -/
def validate_sku (inst : Option Product) (value : String) (db : List Product) :
    Except String String :=
  match inst with
  | some i =>
    if db.any (fun p => p.sku == value && p.product_id != i.product_id) then
      .error "SKU already exists"
    else
      .ok value
  | none =>
    if db.any (fun p => p.sku == value) then
      .error "SKU already exists"
    else
      .ok value

/-- Field-level validation run by ProductCreateUpdateSerializer on a
payload, in serializer field order: the sku check (validate_sku), the
category ChoiceField derived from CATEGORY_CHOICES, the price checks
(the MinValueValidator 0.01 the ModelSerializer inherits from the model
column, then validate_price), and the MinValueValidator 0 the
stock_quantity column carries. Framework constraints no claim touches
(string length caps, decimal digit caps) are not modelled. -/
def validateProductData (inst : Option Product) (d : ProductInput)
    (db : List Product) : Except String Unit :=
  match validate_sku inst d.sku db with
  | .error e => .error e
  | .ok _ =>
    if !(categoryChoices.contains d.category) then
      .error "category: not a valid choice"
    else if d.price < mkRat 1 100 then
      .error "price: ensure this value is greater than or equal to 0.01"
    else
      match validate_price d.price with
      | .error e => .error e
      | .ok _ =>
        match d.stock_quantity with
        | some n =>
          if n < 0 then
            .error "stock_quantity: ensure this value is greater than or equal to 0"
          else
            .ok ()
        | none => .ok ()

/-- The slug defaulting of ProductCreateUpdateSerializer.create lines
116-119: when the payload carries no slug or a falsy one, the serializer
itself writes slugify(name) into the validated data before the model is
constructed. -/
def serializerCreateSlug (d : ProductInput) : Option String :=
  if slugFalsy d.slug then some (slugify d.name) else d.slug

/-- Constructs the model instance from validated data, applying the model
column defaults (is_active true, stock_quantity 0) for absent fields. -/
def buildProduct (d : ProductInput) : Product :=
  { product_id := d.product_id
    sku := d.sku
    name := d.name
    category := d.category
    price := d.price
    is_active := d.is_active.getD true
    slug := d.slug
    description := d.description
    short_description := d.short_description
    cost_price := d.cost_price
    brand := d.brand
    stock_quantity := d.stock_quantity.getD 0 }

/-- Slug values conflict only when both records actually hold one: the
column is unique but nullable, and null never collides. -/
def slugConflict : Option String → Option String → Bool
  | some a, some b => a == b
  | _, _ => false

/-- The INSERT the store executes for super().save() on a new record:
the unique constraints on product_id (primary key), sku and slug are
enforced; a violation surfaces as an IntegrityError. -/
def insertProduct (db : List Product) (p : Product) : Except String (List Product) :=
  if db.any (fun q => q.product_id == p.product_id) then
    .error "IntegrityError: duplicate key value violates unique constraint on product_id"
  else if db.any (fun q => q.sku == p.sku) then
    .error "IntegrityError: duplicate key value violates unique constraint on sku"
  else if db.any (fun q => slugConflict q.slug p.slug) then
    .error "IntegrityError: duplicate key value violates unique constraint on slug"
  else
    .ok (db ++ [p])

/-- Product creation through the API, ProductViewSet.create of views.py
lines 101-113: serializer validation, the serializer slug defaulting of
serializer.py lines 116-119, then Product.save of models.py (whose own
slug branch runs only if the slug is still falsy), then the INSERT. -/
def apiCreate (d : ProductInput) (db : List Product) : Except String (List Product) :=
  match validateProductData none d db with
  | .error e => .error e
  | .ok _ =>
    let p := buildProduct { d with slug := serializerCreateSlug d }
    let p := Product.save db p
    insertProduct db p

/-- Scalar JSON values a request body can carry for stock_quantity.
JSON numbers, integral or fractional, are exact decimals and are carried
as rationals; container values (lists, objects), which would make the
int() call raise an uncaught TypeError, are outside the modelled domain,
and an absent or null value is the none case of the Option at the call
site. -/
inductive JVal where
  | jnum (q : ℚ)
  | jstr (s : String)
  | jbool (b : Bool)
deriving DecidableEq, Repr

/-- Truncation toward zero of an exact decimal: what the Python int()
builtin does to a float such as 5.5 or -5.5. -/
def pyTruncQ (q : ℚ) : Int :=
  Int.tdiv q.num q.den

/-- Value of a nonempty run of decimal digits, none on any other input. -/
def digitsToNat (cs : List Char) : Option Nat :=
  if cs.isEmpty then none
  else if cs.all Char.isDigit then
    some (cs.foldl (fun a c => a * 10 + (c.toNat - 48)) 0)
  else none

/-- The Python int() builtin applied to a string: surrounding whitespace
is ignored, one optional sign is accepted, then decimal digits; anything
else raises ValueError and is none here. The underscore digit grouping
Python also accepts is not modelled; no claim exercises it. -/
def pyStrToInt (s : String) : Option Int :=
  match (((s.data.dropWhile isSpaceChar).reverse.dropWhile isSpaceChar).reverse) with
  | '-' :: rest => (digitsToNat rest).map (fun n => -(n : Int))
  | '+' :: rest => (digitsToNat rest).map (fun n => (n : Int))
  | rest => (digitsToNat rest).map (fun n => (n : Int))

/-- The int(quantity) conversion of views.py line 319 over the scalar
request values: floats truncate toward zero, booleans convert to 0 or 1,
strings parse as integers or raise ValueError (none). -/
def pyInt : JVal → Option Int
  | .jnum q => some (pyTruncQ q)
  | .jstr s => pyStrToInt s
  | .jbool b => some (if b then 1 else 0)

/-- Outcome of the update_stock action. There is no constructor for the
stock-status summary of views.py lines 333-339: building that response
evaluates product.is_low_stock, and the Product model declares no
is_low_stock property and no low_stock_threshold column (the flag block
of models.py lines 158-176 is commented out), so the attribute access
raises AttributeError after the save of line 329 has already persisted
the new quantity. attrErrorAfterSave carries the store and the record as
already persisted when that error is raised. -/
inductive StockUpdateOutcome where
  | badRequest (err : String)
  | attrErrorAfterSave (db : List Product) (saved : Product)
deriving DecidableEq, Repr

/-- The update_stock action of views.py lines 306-339: a missing value is
a 400, a value int() cannot convert is a 400 with the ValueError text, a
negative converted value is a 400 (the raised ValueError is caught by the
same handler), otherwise the quantity is stored and the product saved
(running Product.save, slug branch included), and only then does the
response construction fail on the missing is_low_stock attribute. -/
def update_stock (db : List Product) (product : Product) (payload : Option JVal) :
    StockUpdateOutcome :=
  match payload with
  | none => .badRequest "stock_quantity is required"
  | some v =>
    match pyInt v with
    | none => .badRequest "invalid literal for int() with base 10"
    | some quantity =>
      if quantity < 0 then
        .badRequest "Stock quantity cannot be negative"
      else
        let saved := Product.save db { product with stock_quantity := quantity }
        .attrErrorAfterSave
          (db.map (fun x => if x.product_id == product.product_id then saved else x))
          saved

/-- The quantity the store holds for the mutated record after the
operation, none when the operation stopped before any write. -/
def stockOutcomePersisted : StockUpdateOutcome → Option Int
  | .attrErrorAfterSave _ saved => some saved.stock_quantity
  | _ => none

/-- Whether the operation was refused with a 400 before any mutation. -/
def stockOutcomeRejected : StockUpdateOutcome → Bool
  | .badRequest _ => true
  | _ => false

/-- The destroy action of views.py lines 128-143: a soft delete. The
is_active flag is cleared and the instance saved; instance.save() runs
Product.save of models.py, slug branch included. The returned record is
what the store then holds for this product_id. -/
def destroy (db : List Product) (inst : Product) : Product :=
  Product.save db { inst with is_active := false }

/-- The allow-list of BulkProductUpdateSerializer.validate_updates,
serializer.py lines 187-190, verbatim. -/
def allowed_fields : List String :=
  ["is_active", "is_featured", "price", "stock_quantity",
   "is_available", "category", "brand"]

/-- validate_updates of serializer.py lines 186-196: every key of the
field map must be on the allow-list; the first key outside it aborts the
whole request before any store access. The updates DictField coerces
every value to a string, so the map arrives as string pairs. -/
def validate_updates : List (String × String) → Except String Unit
  | [] => .ok ()
  | kv :: rest =>
    if allowed_fields.contains kv.1 then validate_updates rest
    else .error ("Field " ++ kv.1 ++ " cannot be bulk updated")

/-- A typed field assignment the store can execute for queryset.update. -/
inductive FieldUpdate where
  | setActive (b : Bool)
  | setPrice (q : ℚ)
  | setStock (n : Int)
  | setCategory (s : String)
  | setBrand (s : String)
deriving DecidableEq, Repr

/-- String-to-boolean adaptation of the BooleanField column
(django BooleanField.to_python): the literals t, True, 1 are true and
f, False, 0 are false; anything else raises ValidationError. -/
def djangoParseBool (v : String) : Option Bool :=
  if v == "t" || v == "True" || v == "1" then some true
  else if v == "f" || v == "False" || v == "0" then some false
  else none

/-- Unsigned decimal literal: digits, optionally a dot and more digits. -/
def parseDecCore (cs : List Char) : Option ℚ :=
  match cs.splitOn '.' with
  | [ip] =>
    (digitsToNat ip).map (fun n => (n : ℚ))
  | [ip, fp] =>
    if ip.isEmpty && fp.isEmpty then none
    else if (ip.all Char.isDigit) && (fp.all Char.isDigit) then
      some ((((digitsToNat ip).getD 0 : ℚ))
        + mkRat ((digitsToNat fp).getD 0 : Int) (10 ^ fp.length))
    else none
  | _ => none

/-- Decimal string adaptation of the DecimalField column: optional sign,
digits, optional fractional digits; at least one digit overall. Exponent
notation, which Decimal also accepts, is not modelled; no claim
exercises it. -/
def parseDecimalStr (s : String) : Option ℚ :=
  match (((s.data.dropWhile isSpaceChar).reverse.dropWhile isSpaceChar).reverse) with
  | '-' :: rest => (parseDecCore rest).map Neg.neg
  | '+' :: rest => parseDecCore rest
  | rest => parseDecCore rest

/-- Resolution and value adaptation performed by
Product.objects.filter(...).update(**updates) for one key of the map.
The model declares columns is_active, price, stock_quantity, category
and brand, each with its type adaptation (no choice validation runs on
this path, so category accepts any string); is_featured and is_available,
although on the serializer allow-list, are NOT columns of the Product
model (models.py comments that block out), so the update raises
FieldError for them exactly as for any unknown key. -/
def parseUpdateEntry (k v : String) : Except String FieldUpdate :=
  if k == "is_active" then
    match djangoParseBool v with
    | some b => .ok (.setActive b)
    | none => .error "ValidationError: value must be either True or False"
  else if k == "price" then
    match parseDecimalStr v with
    | some q => .ok (.setPrice q)
    | none => .error "InvalidOperation: could not convert string to Decimal"
  else if k == "stock_quantity" then
    match pyStrToInt v with
    | some n => .ok (.setStock n)
    | none => .error "ValueError: invalid literal for int() with base 10"
  else if k == "category" then .ok (.setCategory v)
  else if k == "brand" then .ok (.setBrand v)
  else .error ("FieldError: cannot resolve keyword " ++ k ++ " into field")

/-- Resolves the whole field map for queryset.update. -/
def parseUpdates : List (String × String) → Except String (List FieldUpdate)
  | [] => .ok []
  | kv :: rest =>
    match parseUpdateEntry kv.1 kv.2 with
    | .error e => .error e
    | .ok u =>
      match parseUpdates rest with
      | .error e => .error e
      | .ok us => .ok (u :: us)

/-- Applies one resolved assignment to a record. -/
def applyFieldUpdate (p : Product) : FieldUpdate → Product
  | .setActive b => { p with is_active := b }
  | .setPrice q => { p with price := q }
  | .setStock n => { p with stock_quantity := n }
  | .setCategory s => { p with category := s }
  | .setBrand s => { p with brand := some s }

/-- Applies the resolved value map to a record, every assignment of the
map in order, as the single SET clause of the UPDATE statement does. -/
def applyFieldUpdates (us : List FieldUpdate) (p : Product) : Product :=
  us.foldl applyFieldUpdate p

/-- The bulk_update action of views.py lines 285-304. Serializer
validation first: product_ids must be a nonempty integer list and every
key of updates must pass the allow-list of validate_updates. Then
Product.objects.filter(product_id__in=product_ids).update(**updates)
resolves every key against the model columns and adapts every value
(parseUpdates; a failure there mutates nothing), applies the same value
map to every record whose product_id is in the request, and returns the
number of rows matched together with the new store. Queryset.update goes
straight to the store: Product.save, its slug logic and the model
validators never run on this path, and no value-level validation beyond
type adaptation is performed. The corner of an empty updates map (which
the serializer accepts) is modelled as matching rows and changing none of
them; no claim and no theorem below exercises that corner. -/
def bulk_update (product_ids : List Int) (updates : List (String × String))
    (db : List Product) : Except String (Nat × List Product) :=
  if product_ids.isEmpty then
    .error "product_ids: ensure this field has at least 1 elements"
  else
    match validate_updates updates with
    | .error e => .error e
    | .ok _ =>
      match parseUpdates updates with
      | .error e => .error e
      | .ok us =>
        .ok ((db.filter (fun p => product_ids.contains p.product_id)).length,
          db.map (fun p =>
            if product_ids.contains p.product_id then applyFieldUpdates us p else p))

/-- Validated query parameters of ProductSearchSerializer, serializer.py
lines 127-154. A none field was absent from the request. The serializer
declares is_active as an optional boolean, and sort_by defaults to
newest-first inside the view. -/
structure SearchParams where
  q : Option String := none
  category : Option String := none
  brand : Option String := none
  min_price : Option ℚ := none
  max_price : Option ℚ := none
  is_active : Option Bool := none
  is_featured : Option Bool := none
  in_stock : Option Bool := none
  tags : Option String := none
  sort_by : Option String := none
deriving DecidableEq, Repr

/-- The sort_by choices of ProductSearchSerializer. -/
def sortChoices : List String :=
  ["price", "-price", "name", "-name", "created_at", "-created_at",
   "stock_quantity", "-stock_quantity"]

/-- ChoiceField validation of the sort_by parameter. -/
def checkSortChoice (prm : SearchParams) : Except String Unit :=
  match prm.sort_by with
  | some s =>
    if sortChoices.contains s then .ok ()
    else .error "sort_by: not a valid choice"
  | none => .ok ()

/-- Serializer validation of the search parameters: category must be one
of the fixed choices, sort_by one of the eight sort keys; everything else
is free-form at this stage. Rejection happens before any store access. -/
def validateSearchParams (prm : SearchParams) : Except String Unit :=
  match prm.category with
  | some c =>
    if categoryChoices.contains c then checkSortChoice prm
    else .error "category: not a valid choice"
  | none => checkSortChoice prm

/-- Whether the first character list is an initial segment of the second. -/
def listStartsWith : List Char → List Char → Bool
  | [], _ => true
  | _ :: _, [] => false
  | p :: ps, h :: hs => p == h && listStartsWith ps hs

/-- Whether the first character list occurs contiguously in the second. -/
def listHasSub (pat : List Char) : List Char → Bool
  | [] => pat.isEmpty
  | h :: hs => listStartsWith pat (h :: hs) || listHasSub pat hs

/-- Case-insensitive substring test: the icontains lookup. -/
def strIContains (hay pat : String) : Bool :=
  listHasSub pat.toLower.data hay.toLower.data

/-- icontains over a nullable column: a null value never matches. -/
def optIContains (hay : Option String) (pat : String) : Bool :=
  match hay with
  | some h => strIContains h pat
  | none => false

/-- The free-text Q object of views.py lines 161-166: the term matches if
it occurs case-insensitively in name OR sku OR description OR brand. -/
def matchesText (t : String) (p : Product) : Bool :=
  strIContains p.name t || strIContains p.sku t
    || optIContains p.description t || optIContains p.brand t

/-- brand__iexact: case-insensitive equality on the nullable brand. -/
def brandIExact (b : String) (p : Product) : Bool :=
  match p.brand with
  | some x => x.toLower == b.toLower
  | none => false

/-- The search action of views.py lines 145-206, filter steps in source
order over the active records. The validated is_active parameter is never
read by the view: the base queryset is unconditionally
Product.objects.filter(is_active=True). The is_featured and tags filters
name columns the Product model does not declare, so building either
queryset raises FieldError at that point in the chain. The final order_by
only permutes the already-determined record set and no theorem below
depends on order, so the store enumeration order is returned. -/
def search (prm : SearchParams) (db : List Product) : Except String (List Product) :=
  match validateSearchParams prm with
  | .error e => .error e
  | .ok _ =>
    let qs := db.filter (fun p => p.is_active)
    let qs := match prm.q with
      | some t => if t == "" then qs else qs.filter (matchesText t)
      | none => qs
    let qs := match prm.category with
      | some c => qs.filter (fun p => p.category == c)
      | none => qs
    let qs := match prm.brand with
      | some b => if b == "" then qs else qs.filter (brandIExact b)
      | none => qs
    let qs := match prm.min_price with
      | some m => qs.filter (fun p => decide (m ≤ p.price))
      | none => qs
    let qs := match prm.max_price with
      | some m => qs.filter (fun p => decide (p.price ≤ m))
      | none => qs
    match prm.is_featured with
    | some _ => .error "FieldError: cannot resolve keyword is_featured into field"
    | none =>
      let qs := match prm.in_stock with
        | some b => if b then qs.filter (fun p => p.stock_quantity > 0) else qs
        | none => qs
      match prm.tags with
      | some t =>
        if t == "" then .ok qs
        else .error "FieldError: cannot resolve keyword tags into field"
      | none => .ok qs

/-- Product.save never changes the stock quantity. -/
lemma Product.save_stock (db : List Product) (x : Product) :
    (Product.save db x).stock_quantity = x.stock_quantity := by
  unfold Product.save
  split <;> rfl

/-- Product.save never changes the price. -/
lemma Product.save_price (db : List Product) (x : Product) :
    (Product.save db x).price = x.price := by
  unfold Product.save
  split <;> rfl

/-- Product.save never changes the active flag. -/
lemma Product.save_is_active (db : List Product) (x : Product) :
    (Product.save db x).is_active = x.is_active := by
  unfold Product.save
  split <;> rfl

/-- On a record whose slug is already set and nonempty, Product.save is
the identity: the generation branch is skipped. -/
lemma Product.save_of_slug_set (db : List Product) (x : Product)
    (h : slugFalsy x.slug = false) : Product.save db x = x := by
  unfold Product.save
  simp [h]

/-- Claim C7: create rejects a SKU equal (case-sensitively) to the SKU of
any existing product, active or not, and raises the validation error
exactly in that case; update rejects a SKU held by any product other than
the record being updated, hence accepts the record's own unchanged SKU. -/
theorem c7_sku_uniqueness (db : List Product) (v : String) (i : Product) :
    (validate_sku none v db = .error "SKU already exists" ↔ ∃ p ∈ db, p.sku = v) ∧
    (validate_sku (some i) v db = .error "SKU already exists" ↔
      ∃ p ∈ db, p.sku = v ∧ p.product_id ≠ i.product_id) := by
  constructor
  · unfold validate_sku
    split
    · simp_all [List.any_eq_true]
    · simp_all [List.any_eq_true]
  · unfold validate_sku
    split
    · simp_all [List.any_eq_true]
    · simp_all [List.any_eq_true]

/-- Record used by the C8 witness. -/
def prodC8 : Product :=
  { product_id := 7, sku := "SKU0007", name := "Blue Hat", category := "Clothing",
    price := 12, is_active := true, slug := some "blue-hat", stock_quantity := 4 }

/-- Claim C8: soft delete flips is_active to false and leaves stock
quantity, price and slug untouched. The hypothesis states that the record
holds a nonempty slug, which every record persisted by this service does:
every create and update path runs Product.save, which assigns one. -/
theorem c8_soft_delete_frame (db : List Product) (p : Product)
    (h : slugFalsy p.slug = false) :
    (destroy db p).is_active = false ∧
    (destroy db p).stock_quantity = p.stock_quantity ∧
    (destroy db p).price = p.price ∧
    (destroy db p).slug = p.slug := by
  unfold destroy
  rw [Product.save_of_slug_set db { p with is_active := false } h]
  exact ⟨rfl, rfl, rfl, rfl⟩

/-- Witness for C8 at a concrete record. -/
theorem c8_soft_delete_frame_witness :
    slugFalsy prodC8.slug = false ∧
    ((destroy [prodC8] prodC8).is_active = false ∧
     (destroy [prodC8] prodC8).stock_quantity = prodC8.stock_quantity ∧
     (destroy [prodC8] prodC8).price = prodC8.price ∧
     (destroy [prodC8] prodC8).slug = prodC8.slug) :=
  ⟨rfl, c8_soft_delete_frame [prodC8] prodC8 rfl⟩

/-- Existing record holding the slug red-shoes, for C1. -/
def redShoes1 : Product :=
  { product_id := 1, sku := "SKU0001", name := "Red Shoes", category := "Clothing",
    price := 15, is_active := true, slug := some "red-shoes", stock_quantity := 3 }

/-- A second Red Shoes record arriving with no slug, as the model layer
sees it (direct Product.save with the slug column empty), for C1. -/
def redShoesRaw2 : Product :=
  { product_id := 2, sku := "SKU0002", name := "Red Shoes", category := "Clothing",
    price := 10, is_active := true, slug := none, stock_quantity := 0 }

/-- The second record as the store holds it after the model-layer save. -/
def redShoesDb2 : Product :=
  { redShoesRaw2 with slug := some "red-shoes-1" }

/-- A third Red Shoes record arriving with no slug, for C1. -/
def redShoesRaw3 : Product :=
  { product_id := 3, sku := "SKU0003", name := "Red Shoes", category := "Clothing",
    price := 10, is_active := true, slug := none, stock_quantity := 0 }

/-- The same second creation as an API payload with no slug, for C1. -/
def redShoesInput2 : ProductInput :=
  { product_id := 2, sku := "SKU0002", name := "Red Shoes", category := "Clothing",
    price := 10 }

/-- Claim C1 (code bug): the slug assigner of Product.save does resolve
collisions with -1, -2 suffixes, excluding the record itself — the first
two conjuncts evaluate the model layer on the Red Shoes scenario of the
claim. But on the API create path the claim cites,
ProductCreateUpdateSerializer.create writes the base slug slugify(name)
into the payload first, so Product.save sees a nonempty slug, skips its
collision loop, and the INSERT hits the unique constraint instead of
yielding red-shoes-1: the third conjunct evaluates that path on the same
scenario. -/
theorem c1_slug_suffix_code_bug :
    (Product.save [redShoes1] redShoesRaw2).slug = some "red-shoes-1" ∧
    (Product.save [redShoes1, redShoesDb2] redShoesRaw3).slug = some "red-shoes-2" ∧
    apiCreate redShoesInput2 [redShoes1] =
      .error "IntegrityError: duplicate key value violates unique constraint on slug" :=
  ⟨rfl, rfl, rfl⟩

/-- The Test Widget record of the spec scenario, for C2. -/
def prodC2 : Product :=
  { product_id := 9, sku := "SKU9001", name := "Test Widget", category := "Electronics",
    price := mkRat 1999 100, is_active := true, slug := some "test-widget",
    stock_quantity := 0 }

/-- Claim C2 (code bug): a stock update to 5 persists the quantity but
never returns the stock-status summary: the response construction of
views.py lines 333-339 reads product.is_low_stock, which the Product
model does not define (no is_low_stock property, no low_stock_threshold
column), so the request ends in an AttributeError after the save. The
is_in_stock half of the claimed summary does hold of the model property
itself: 5 is in stock, 0 is not. -/
theorem c2_low_stock_code_bug :
    update_stock [prodC2] prodC2 (some (.jnum 5)) =
      .attrErrorAfterSave [{ prodC2 with stock_quantity := 5 }]
        { prodC2 with stock_quantity := 5 } ∧
    Product.is_in_stock { prodC2 with stock_quantity := 5 } = true ∧
    Product.is_in_stock prodC2 = false :=
  ⟨rfl, rfl, rfl⟩

/-- An active Clothing record, for C9. -/
def prodC9 : Product :=
  { product_id := 11, sku := "SKU0011", name := "Red Scarf", category := "Clothing",
    price := 9, is_active := true, slug := some "red-scarf", stock_quantity := 2 }

/-- Claim C9 (code bug): any search with a nonempty tag list errors
instead of filtering by tag overlap: the view filters on tags__overlap
but the Product model declares no tags column, so the queryset raises
FieldError. The second conjunct shows the same store without the tag
parameter is searched fine, isolating the failure to the tags filter. -/
theorem c9_tags_overlap_code_bug :
    search { tags := some "red" } [prodC9] =
      .error "FieldError: cannot resolve keyword tags into field" ∧
    search {} [prodC9] = .ok [prodC9] :=
  ⟨rfl, rfl⟩

/-- An active Electronics record priced inside [10, 50], for C3. -/
def elecActive : Product :=
  { product_id := 21, sku := "SKU0021", name := "Radio", category := "Electronics",
    price := 20, is_active := true, slug := some "radio", stock_quantity := 6 }

/-- An inactive Electronics record priced inside [10, 50], for C3. -/
def elecInactive : Product :=
  { product_id := 22, sku := "SKU0022", name := "Old Radio", category := "Electronics",
    price := 20, is_active := false, slug := some "old-radio", stock_quantity := 6 }

/-- Counterexample to claim C3 as stated: the same Electronics search
with is_active explicitly supplied does not return the inactive match;
the view never reads the validated is_active parameter and always starts
from the active-only queryset, so only the active record comes back even
though the inactive one satisfies every other filter. -/
theorem c3_search_is_active_counterexample :
    search { category := some "Electronics", min_price := some 10, max_price := some 50,
             is_active := some false } [elecActive, elecInactive] = .ok [elecActive] ∧
    elecInactive.category = "Electronics" ∧
    elecInactive.is_active = false ∧
    (10 : ℚ) ≤ elecInactive.price ∧ elecInactive.price ≤ (50 : ℚ) :=
  ⟨rfl, rfl, rfl, by norm_num [elecInactive], by norm_num [elecInactive]⟩

/-- Claim C3 as amended: the Electronics search with price window [10, 50]
returns exactly the active Electronics records priced in that window, and
the is_active parameter — though accepted by the search parameter
serializer — is ignored: whatever value it carries (or none), the result
is the same active-only record set. -/
theorem c3_search_window_amended (db : List Product) (o : Option Bool) :
    ∃ l, search { category := some "Electronics", min_price := some 10,
                  max_price := some 50, is_active := o } db = .ok l ∧
      ∀ p : Product, p ∈ l ↔ p ∈ db ∧ p.is_active = true ∧
        p.category = "Electronics" ∧ (10 : ℚ) ≤ p.price ∧ p.price ≤ (50 : ℚ) := by
  refine ⟨_, rfl, ?_⟩
  intro p
  simp only [List.mem_filter, decide_eq_true_eq, beq_iff_eq, and_assoc]

/-- A serializer run that succeeds has seen a non-negative stock value:
the MinValueValidator 0 check of validateProductData. -/
lemma validateProductData_ok_stock {inst : Option Product} {d : ProductInput}
    {db : List Product} (h : validateProductData inst d db = .ok ()) :
    ∀ n, d.stock_quantity = some n → 0 ≤ n := by
  intro n hn
  unfold validateProductData at h
  rw [hn] at h
  repeat' split at h
  all_goals simp_all

/-- Record used by the C10 theorems. -/
def prodC10 : Product :=
  { product_id := 31, sku := "SKU0031", name := "Gizmo", category := "Electronics",
    price := 8, is_active := true, slug := some "gizmo", stock_quantity := 1 }

/-- Claim C10: a fractional stock_quantity value is truncated toward zero
by the int() conversion and the truncated quantity is persisted (the
request is not rejected; the response then fails for the reason recorded
at C2, after the save); a value int() cannot convert, such as a
non-numeric string, and a value converting to a negative integer are both
rejected with a 400 before any mutation. -/
theorem c10_stock_truncation (db : List Product) (p : Product) (q : ℚ) (s : String) :
    (0 ≤ pyTruncQ q →
      stockOutcomePersisted (update_stock db p (some (.jnum q))) = some (pyTruncQ q)) ∧
    (pyTruncQ q < 0 →
      update_stock db p (some (.jnum q)) =
        .badRequest "Stock quantity cannot be negative") ∧
    (pyStrToInt s = none →
      update_stock db p (some (.jstr s)) =
        .badRequest "invalid literal for int() with base 10") := by
  refine ⟨?_, ?_, ?_⟩
  · intro h
    unfold update_stock
    simp only [pyInt]
    rw [if_neg (not_lt.mpr h)]
    simp only [stockOutcomePersisted, Product.save_stock]
  · intro h
    unfold update_stock
    simp only [pyInt]
    rw [if_pos h]
  · intro h
    unfold update_stock
    simp only [pyInt, h]

/-- Witness for C10: 5.5 truncates to 5 and is persisted; -5.5 converts
to -5 and is rejected; a non-numeric string is rejected. -/
theorem c10_stock_truncation_witness :
    stockOutcomePersisted (update_stock [prodC10] prodC10 (some (.jnum (mkRat 11 2))))
      = some 5 ∧
    update_stock [prodC10] prodC10 (some (.jnum (mkRat (-11) 2))) =
      .badRequest "Stock quantity cannot be negative" ∧
    update_stock [prodC10] prodC10 (some (.jstr "abc")) =
      .badRequest "invalid literal for int() with base 10" := by
  refine ⟨?_, ?_, ?_⟩
  · exact ((c10_stock_truncation [prodC10] prodC10 (mkRat 11 2) "abc").1
      (by decide)).trans (by decide)
  · exact (c10_stock_truncation [prodC10] prodC10 (mkRat (-11) 2) "abc").2.1 (by decide)
  · exact (c10_stock_truncation [prodC10] prodC10 (mkRat 11 2) "abc").2.2 (by decide)

/-- Record used by the C4 and C5 theorems. -/
def prodC4 : Product :=
  { product_id := 41, sku := "SKU0041", name := "Lamp", category := "Electronics",
    price := 30, is_active := true, slug := some "lamp", stock_quantity := 5 }

/-- Counterexample to claim C4 as stated: the bulk-update path performs
no value validation, so a successful bulk mutation persists a negative
stock quantity. -/
theorem c4_negative_stock_counterexample :
    bulk_update [41] [("stock_quantity", "-5")] [prodC4] =
      .ok (1, [{ prodC4 with stock_quantity := -5 }]) ∧
    ({ prodC4 with stock_quantity := -5 } : Product).stock_quantity < 0 :=
  ⟨rfl, by decide⟩

/-- Claim C4 as amended: create and update reject a negative
stock_quantity at serializer validation, the dedicated stock update
rejects any value converting to a negative integer before mutation, and
whatever quantity the stock update does persist is non-negative; the
bulk-update path alone performs no value validation and can persist a
negative stock quantity. -/
theorem c4_stock_nonneg_amended (inst : Option Product) (d : ProductInput)
    (db : List Product) (p : Product) (v : JVal) (n m : Int) :
    (d.stock_quantity = some n → n < 0 → validateProductData inst d db ≠ .ok ()) ∧
    (pyInt v = some m → m < 0 →
      update_stock db p (some v) = .badRequest "Stock quantity cannot be negative") ∧
    (stockOutcomePersisted (update_stock db p (some v)) = some m → 0 ≤ m) := by
  refine ⟨?_, ?_, ?_⟩
  · intro hs hn hok
    have := validateProductData_ok_stock hok n hs
    omega
  · intro hv hm
    simp only [update_stock, hv]
    rw [if_pos hm]
  · intro hpers
    simp only [update_stock] at hpers
    cases hv : pyInt v with
    | none => rw [hv] at hpers; simp [stockOutcomePersisted] at hpers
    | some k =>
      rw [hv] at hpers
      repeat' split at hpers
      all_goals simp_all [stockOutcomePersisted, Product.save_stock]

/-- Witness for C4 as amended: a create payload with stock -3 fails
validation; a stock update to -7 is refused; the quantity update_stock
persists for 4 is non-negative. -/
theorem c4_stock_nonneg_amended_witness :
    validateProductData none
      { product_id := 42, sku := "SKU0042", name := "Rug", category := "Clothing",
        price := 10, stock_quantity := some (-3) } [] ≠ .ok () ∧
    update_stock [prodC4] prodC4 (some (.jnum (-7))) =
      .badRequest "Stock quantity cannot be negative" ∧
    (0 : Int) ≤ 4 := by
  refine ⟨?_, ?_, ?_⟩
  · exact (c4_stock_nonneg_amended none
      { product_id := 42, sku := "SKU0042", name := "Rug", category := "Clothing",
        price := 10, stock_quantity := some (-3) } [] prodC4 (.jnum (-7)) (-3) (-7)).1
      rfl (by decide)
  · exact (c4_stock_nonneg_amended none
      { product_id := 42, sku := "SKU0042", name := "Rug", category := "Clothing",
        price := 10, stock_quantity := some (-3) } [] prodC4 (.jnum (-7)) (-3) (-7)).2.1
      (by decide) (by decide)
  · exact (c4_stock_nonneg_amended none
      { product_id := 42, sku := "SKU0042", name := "Rug", category := "Clothing",
        price := 10, stock_quantity := some (-3) } [prodC4] prodC4 (.jnum 4) (-3) 4).2.2
      (by decide)

/-- A field map containing a key outside the allow-list always fails
validate_updates. -/
lemma validate_updates_error_of_bad :
    ∀ upd : List (String × String),
      (∃ kv ∈ upd, allowed_fields.contains kv.1 = false) →
      ∃ e, validate_updates upd = .error e := by
  intro upd
  induction upd with
  | nil =>
    rintro ⟨kv, hmem, _⟩
    exact absurd hmem (List.not_mem_nil kv)
  | cons a rest ih =>
    rintro ⟨kv, hmem, hbad⟩
    by_cases ha : a.1 ∈ allowed_fields
    · rcases List.mem_cons.mp hmem with rfl | hmem'
      · simp at hbad
        exact absurd ha hbad
      · obtain ⟨e, he⟩ := ih ⟨kv, hmem', hbad⟩
        refine ⟨e, ?_⟩
        simp [validate_updates, ha, he]
    · refine ⟨"Field " ++ a.1 ++ " cannot be bulk updated", ?_⟩
      simp [validate_updates, ha]

/-- Claim C5: a bulk-update request whose field map carries any key
outside the allow-list is rejected whole: the serializer error aborts the
request before the queryset update, so no record is mutated (the error
outcome carries no new store). -/
theorem c5_bulk_allowlist_reject (ids : List Int) (upd : List (String × String))
    (db : List Product) (h : ∃ kv ∈ upd, allowed_fields.contains kv.1 = false) :
    ∃ e, bulk_update ids upd db = .error e := by
  obtain ⟨e, he⟩ := validate_updates_error_of_bad upd h
  unfold bulk_update
  by_cases hids : ids.isEmpty
  · exact ⟨_, by rw [if_pos hids]⟩
  · rw [if_neg hids, he]
    exact ⟨e, rfl⟩

/-- Witness for C5: a map with the key color, mixed with an allowed key,
is rejected. -/
theorem c5_bulk_allowlist_reject_witness :
    ∃ e, bulk_update [41] [("is_active", "True"), ("color", "red")] [prodC4] =
      .error e :=
  c5_bulk_allowlist_reject [41] [("is_active", "True"), ("color", "red")] [prodC4]
    ⟨("color", "red"), by simp, by decide⟩

/-- A key whose entry resolves against the model columns is on the
allow-list: the five resolvable keys are all allow-listed. -/
lemma parseEntry_key_allowed (k v : String) (u : FieldUpdate)
    (h : parseUpdateEntry k v = .ok u) : allowed_fields.contains k = true := by
  unfold parseUpdateEntry at h
  repeat' split at h
  all_goals simp_all [allowed_fields]

/-- A field map the queryset update can resolve passes validate_updates. -/
lemma validate_updates_ok_of_parse :
    ∀ (upd : List (String × String)) (us : List FieldUpdate),
      parseUpdates upd = .ok us → validate_updates upd = .ok () := by
  intro upd
  induction upd with
  | nil => intro us _; rfl
  | cons a rest ih =>
    intro us h
    unfold parseUpdates at h
    cases he : parseUpdateEntry a.1 a.2 with
    | error e => rw [he] at h; simp at h
    | ok u =>
      rw [he] at h
      cases hr : parseUpdates rest with
      | error e => rw [hr] at h; simp at h
      | ok us' =>
        have hk : a.1 ∈ allowed_fields := by
          simpa using parseEntry_key_allowed a.1 a.2 u he
        simp [validate_updates, hk, ih us' hr]

/-- Record used by the C6 theorems. -/
def prodC6 : Product :=
  { product_id := 61, sku := "SKU0061", name := "Fan", category := "Electronics",
    price := 25, is_active := true, slug := some "fan", stock_quantity := 3 }

/-- Counterexample to claim C6 as stated: is_featured is on the
allow-list, so this field map contains only allow-listed keys, yet the
operation fails instead of succeeding — the Product model declares no
is_featured column and the queryset update raises FieldError. -/
theorem c6_bulk_phantom_field_counterexample :
    bulk_update [61] [("is_featured", "True")] [prodC6] =
      .error "FieldError: cannot resolve keyword is_featured into field" ∧
    allowed_fields.contains "is_featured" = true :=
  ⟨rfl, rfl⟩

/-- Claim C6 as amended: a bulk-update request with a nonempty identifier
list whose field map resolves against the model columns (keys among the
allow-listed keys that are real columns — is_active, price,
stock_quantity, category, brand — with values their types accept)
succeeds, applies the same resolved value map uniformly to exactly the
records whose identifiers appear in the request, and returns the count of
records matched. -/
theorem c6_bulk_apply_amended (ids : List Int) (upd : List (String × String))
    (db : List Product) (us : List FieldUpdate)
    (h1 : ids ≠ []) (_h2 : upd ≠ []) (h3 : parseUpdates upd = .ok us) :
    bulk_update ids upd db = .ok
      ((db.filter (fun p => ids.contains p.product_id)).length,
       db.map (fun p =>
         if ids.contains p.product_id then applyFieldUpdates us p else p)) := by
  have hids : ids.isEmpty = false := by
    cases ids with
    | nil => exact absurd rfl h1
    | cons a l => rfl
  unfold bulk_update
  rw [hids, validate_updates_ok_of_parse upd us h3, h3]
  rfl

/-- Witness for C6 as amended: deactivating and rebranding records 61 and
99 touches exactly the matching record 61 and reports one record. -/
theorem c6_bulk_apply_amended_witness :
    bulk_update [61, 99] [("is_active", "False"), ("brand", "Acme")] [prodC6, prodC4]
      = .ok
      (([prodC6, prodC4].filter (fun p => [(61 : Int), 99].contains p.product_id)).length,
       [prodC6, prodC4].map (fun p =>
         if [(61 : Int), 99].contains p.product_id then
           applyFieldUpdates [.setActive false, .setBrand "Acme"] p
         else p)) :=
  c6_bulk_apply_amended [61, 99] [("is_active", "False"), ("brand", "Acme")]
    [prodC6, prodC4] [.setActive false, .setBrand "Acme"] (by decide) (by decide) rfl

end Catalog
